import Mathlib

/-!
Shallow embedding of the Vulkan screen-compositing renderer
(`src/video_core/renderer_vulkan/renderer_vulkan.cpp`) and proofs of the
specification claims about it.

Machine integers of the source (`u32`, `u8`, bitfields) are modelled as `Nat`;
the source never relies on wraparound in the code regions embedded here.
Host floats (`f32`) are modelled as `ℚ`: every float operation appearing in
the embedded code (negation, addition, division by small constants) is exact
at the spec's level of description.  GPU handles (images, views) are modelled
as opaque `Nat` identifiers.  Side effects (scheduler recordings, guest-memory
reads, log messages, assertion failures) are modelled as explicit event lists
in the order the source performs them.
-/

namespace Vulkan

/-- Guest framebuffer descriptor, `GPU::Regs::FramebufferConfig`:
per-slot addresses for both eyes and both double-buffer indices, plus
dimensions, stride and pixel format. -/
structure FramebufferConfig where
  active_fb : Nat
  address_left1 : Nat
  address_left2 : Nat
  address_right1 : Nat
  address_right2 : Nat
  width : Nat
  height : Nat
  stride : Nat
  color_format : Nat
  deriving DecidableEq, Repr

/-- `GPU::Regs::BytesPerPixel`: RGBA8 (0) is 4 bytes, RGB8 (1) is 3 bytes,
the three 16-bit formats are 2 bytes. -/
def BytesPerPixel (format : Nat) : Nat :=
  match format with
  | 0 => 4
  | 1 => 3
  | _ => 2

/-- `LCD::Regs::ColorFill`: the color-fill register read per slot in
`PrepareRendertarget` (enabled flag plus 8-bit color channels). -/
structure ColorFill where
  is_enabled : Bool
  color_r : Nat
  color_g : Nat
  color_b : Nat
  deriving DecidableEq, Repr

/-- One emulated screen's GPU-resident image metadata (`TextureInfo`):
width, height and pixel format mirroring the guest format. -/
structure TextureInfo where
  width : Nat
  height : Nat
  format : Nat
  image_view : Nat
  deriving DecidableEq, Repr

/-- Texture-coordinate rectangle of a screen (`Common::Rectangle<float>`). -/
structure Texcoords where
  left : ℚ
  top : ℚ
  right : ℚ
  bottom : ℚ
  deriving DecidableEq, Repr

/-- `ScreenInfo`: a screen's permanent texture, the texture-coordinate
rectangle and the currently bound display view (which may be overridden by
the rasterizer on the zero-copy path). -/
structure ScreenInfo where
  texture : TextureInfo
  texcoords : Texcoords
  image_view : Nat
  deriving DecidableEq, Repr

/-- `Settings::StereoRenderOption`. -/
inductive StereoRenderOption where
  | Off
  | SideBySide
  | Anaglyph
  | Interlaced
  | ReverseInterlaced
  | CardboardVR
  deriving DecidableEq, Repr

/-- The renderer state mutated by `ReloadPipeline`: the active present
pipeline index and the reverse-interlace flag of the per-draw uniform data. -/
structure PipelineState where
  current_pipeline : Nat
  reverse_interlaced : Bool
  deriving DecidableEq, Repr

/-- `RendererVulkan::ReloadPipeline`: re-derives the active pipeline index
from the stereo setting; the reverse-interlace flag is written only in the
`Interlaced`/`ReverseInterlaced` cases and left untouched otherwise. -/
def ReloadPipeline (render_3d : StereoRenderOption) (s : PipelineState) :
    PipelineState :=
  match render_3d with
  | .Anaglyph => { s with current_pipeline := 1 }
  | .Interlaced =>
      { current_pipeline := 2, reverse_interlaced := false }
  | .ReverseInterlaced =>
      { current_pipeline := 2, reverse_interlaced := true }
  | _ => { s with current_pipeline := 0 }

/-- The framebuffer address selected by `LoadFBToScreenInfo`: a zero
right-eye address in either double-buffer slot silently downgrades the
request to the left eye, then the active double-buffer index picks among
the remaining addresses. -/
def SelectFramebufferAddr (framebuffer : FramebufferConfig)
    (right_eye : Bool) : Nat :=
  let right_eye :=
    if framebuffer.address_right1 = 0 ∨ framebuffer.address_right2 = 0 then
      false
    else right_eye
  if framebuffer.active_fb = 0 then
    if right_eye then framebuffer.address_right1 else framebuffer.address_left1
  else
    if right_eye then framebuffer.address_right2 else framebuffer.address_left2

/-- Observable effects of one `LoadFBToScreenInfo` call, in program order. -/
inductive LoadFBEvent where
  | assertFail
  | acceleratedBind (addr : Nat)
  | fallbackBind
  deriving DecidableEq, Repr

/-- `RendererVulkan::LoadFBToScreenInfo`.  The rasterizer collaborator's
`AccelerateDisplay` verdict is the `accel` parameter.  The two stride
assertions guard the body; on the non-accelerated branch the display view is
reset to the screen's permanent texture view with texcoords (0,0,1,1) and
then `ASSERT(false)` fires. -/
def LoadFBToScreenInfo (framebuffer : FramebufferConfig)
    (screen_info : ScreenInfo) (right_eye : Bool) (accel : Bool) :
    ScreenInfo × List LoadFBEvent :=
  let framebuffer_addr := SelectFramebufferAddr framebuffer right_eye
  let bpp := BytesPerPixel framebuffer.color_format
  let pixel_stride := framebuffer.stride / bpp
  if pixel_stride * bpp ≠ framebuffer.stride then
    (screen_info, [.assertFail])
  else if pixel_stride % 4 ≠ 0 then
    (screen_info, [.assertFail])
  else if accel then
    (screen_info, [.acceleratedBind framebuffer_addr])
  else
    ({ screen_info with
        image_view := screen_info.texture.image_view
        texcoords := { left := 0, top := 0, right := 1, bottom := 1 } },
     [.fallbackBind, .assertFail])

/-- `RendererVulkan::ConfigureFramebufferTexture`: the slot's image and view
are destroyed and reallocated at the descriptor's dimensions and format.
The view identifier is kept stable in the model: no claim observes handle
freshness, only the (width, height, format) metadata. -/
def ConfigureFramebufferTexture (texture : TextureInfo)
    (framebuffer : FramebufferConfig) : TextureInfo :=
  { width := framebuffer.width
    height := framebuffer.height
    format := framebuffer.color_format
    image_view := texture.image_view }

/-- `RendererVulkan::LoadColorToActiveVkTexture`: the clear color recorded
for the flat-fill GPU transfer, each 8-bit channel divided by 255 with
alpha 1. -/
def LoadColorToActiveVkTexture (color_r color_g color_b : Nat) :
    ℚ × ℚ × ℚ × ℚ :=
  ((color_r : ℚ) / 255, (color_g : ℚ) / 255, (color_b : ℚ) / 255, 1)

/-- Observable effects of `PrepareRendertarget` for one slot, in program
order: a recorded flat-fill clear, a texture reallocation
(`ConfigureFramebufferTexture`), or a guest framebuffer load
(`LoadFBToScreenInfo`). -/
inductive PrepareEvent where
  | clearColor (slot : Nat) (r g b a : ℚ)
  | reallocTexture (slot : Nat) (width height format : Nat)
  | loadFB (slot : Nat) (right_eye : Bool)
  deriving DecidableEq, Repr

/-- The body of the `PrepareRendertarget` loop for one slot: if the slot's
color fill is enabled, only a clear is recorded; otherwise the texture is
reallocated when (width, height, format) differ from the descriptor, the
guest framebuffer is loaded, and width/height are finally (re)assigned from
the descriptor.  Returns the new texture, whether
`ConfigureFramebufferTexture` ran, and the events. -/
def PrepareSlot (texture : TextureInfo) (framebuffer : FramebufferConfig)
    (color_fill : ColorFill) (slot : Nat) :
    TextureInfo × Bool × List PrepareEvent :=
  if color_fill.is_enabled then
    let c := LoadColorToActiveVkTexture color_fill.color_r color_fill.color_g
      color_fill.color_b
    (texture, false, [.clearColor slot c.1 c.2.1 c.2.2.1 c.2.2.2])
  else
    let realloc : Bool :=
      texture.width != framebuffer.width ||
      texture.height != framebuffer.height ||
      texture.format != framebuffer.color_format
    let texture1 :=
      if realloc then ConfigureFramebufferTexture texture framebuffer
      else texture
    let texture2 :=
      { texture1 with width := framebuffer.width, height := framebuffer.height }
    (texture2, realloc,
      (if realloc then
        [PrepareEvent.reallocTexture slot framebuffer.width framebuffer.height
          framebuffer.color_format]
       else []) ++ [.loadFB slot (slot == 1)])

/-- The three per-screen textures mutated by `PrepareRendertarget`
(`screen_infos[0..2].texture`). -/
structure RendertargetState where
  texture0 : TextureInfo
  texture1 : TextureInfo
  texture2 : TextureInfo
  deriving DecidableEq, Repr

/-- The guest state read by one `PrepareRendertarget` call: framebuffer
descriptors 0 and 1 (slots 0 and 1 share descriptor 0, slot 2 uses
descriptor 1) and the two LCD color-fill registers. -/
structure PrepareInput where
  framebuffer0 : FramebufferConfig
  framebuffer1 : FramebufferConfig
  color_fill_top : ColorFill
  color_fill_bottom : ColorFill
  deriving DecidableEq, Repr

/-- `RendererVulkan::PrepareRendertarget`: the loop over the 3 screen slots. -/
def PrepareRendertarget (s : RendertargetState) (input : PrepareInput) :
    RendertargetState × List PrepareEvent :=
  let r0 := PrepareSlot s.texture0 input.framebuffer0 input.color_fill_top 0
  let r1 := PrepareSlot s.texture1 input.framebuffer0 input.color_fill_top 1
  let r2 := PrepareSlot s.texture2 input.framebuffer1 input.color_fill_bottom 2
  (⟨r0.1, r1.1, r2.1⟩, r0.2.2 ++ r1.2.2 ++ r2.2.2)

/-- A sequence of `PrepareRendertarget` calls, threading the texture state. -/
def PrepareMany (s : RendertargetState) (inputs : List PrepareInput) :
    RendertargetState :=
  inputs.foldl (fun st input => (PrepareRendertarget st input).1) s

/-- One vertex of the 4-vertex present triangle strip (`ScreenRectVertex`). -/
structure ScreenRectVertex where
  pos_x : ℚ
  pos_y : ℚ
  tex_u : ℚ
  tex_v : ℚ
  deriving DecidableEq, Repr

/-- A 4-component float vector (`Common::Vec4<f32>` as built by
`Common::MakeVec`). -/
structure Vec4 where
  x : ℚ
  y : ℚ
  z : ℚ
  w : ℚ
  deriving DecidableEq, Repr

/-- `Layout::DisplayOrientation` is modelled by its underlying integer:
0 = Landscape, 1 = Portrait, 2 = LandscapeFlipped, 3 = PortraitFlipped;
any other value hits the `default` arm of the orientation switches. -/
def Landscape : Nat := 0

/-- `Layout::DisplayOrientation::Portrait`. -/
def Portrait : Nat := 1

/-- `Layout::DisplayOrientation::LandscapeFlipped`. -/
def LandscapeFlipped : Nat := 2

/-- `Layout::DisplayOrientation::PortraitFlipped`. -/
def PortraitFlipped : Nat := 3

/-- The triangle-strip vertices built by the orientation switch in
`DrawSingleScreen`/`DrawSingleScreenStereo`.  On the `default` arm the
source leaves the `vertices` array default-initialized (indeterminate
contents), modelled as `none`. -/
def MakeScreenVertices (x y w h : ℚ) (tc : Texcoords)
    (orientation : Nat) : Option (List ScreenRectVertex) :=
  match orientation with
  | 0 => some
      [⟨x, y, tc.bottom, tc.left⟩, ⟨x + w, y, tc.bottom, tc.right⟩,
       ⟨x, y + h, tc.top, tc.left⟩, ⟨x + w, y + h, tc.top, tc.right⟩]
  | 1 => some
      [⟨x, y, tc.bottom, tc.right⟩, ⟨x + w, y, tc.top, tc.right⟩,
       ⟨x, y + h, tc.bottom, tc.left⟩, ⟨x + w, y + h, tc.top, tc.left⟩]
  | 2 => some
      [⟨x, y, tc.top, tc.right⟩, ⟨x + w, y, tc.top, tc.left⟩,
       ⟨x, y + h, tc.bottom, tc.right⟩, ⟨x + w, y + h, tc.bottom, tc.left⟩]
  | 3 => some
      [⟨x, y, tc.top, tc.left⟩, ⟨x + w, y, tc.bottom, tc.left⟩,
       ⟨x, y + h, tc.top, tc.right⟩, ⟨x + w, y + h, tc.bottom, tc.right⟩]
  | _ => none

/-- The local (w, h) pair after the orientation switch: the portrait arms
execute `std::swap(h, w)` after building the vertices. -/
def EffectiveSize (w h : ℚ) (orientation : Nat) : ℚ × ℚ :=
  if orientation = 1 ∨ orientation = 3 then (h, w) else (w, h)

/-- Observable effects of one `DrawSingleScreen`(`Stereo`) call. -/
inductive DrawEvent where
  | logUnknownOrientation (orientation : Nat)
  | vertexUpload (count : Nat)
  | drawCmd (count : Nat)
  deriving DecidableEq, Repr

/-- Result of one `DrawSingleScreen` call: vertex data, the per-draw uniform
fields it assigns, and the recorded events. -/
structure SingleDraw where
  vertices : Option (List ScreenRectVertex)
  i_resolution : Vec4
  o_resolution : Vec4
  screen_id_l : Nat
  events : List DrawEvent
  deriving DecidableEq, Repr

/-- `RendererVulkan::DrawSingleScreen`: builds the vertices for the
orientation (logging on an unrecognized value), then unconditionally uploads
them and records a 4-vertex draw; `o_resolution` is `(h, w, 1/h, 1/w)` with
the post-swap local `h`, `w`. -/
def DrawSingleScreen (screen_info : ScreenInfo) (scale_factor : Nat)
    (screen_id : Nat) (x y w h : ℚ) (orientation : Nat) : SingleDraw :=
  let vertices := MakeScreenVertices x y w h screen_info.texcoords orientation
  let logged : List DrawEvent :=
    if orientation ≤ 3 then [] else [.logUnknownOrientation orientation]
  let wh := EffectiveSize w h orientation
  let tw : ℚ := screen_info.texture.width * scale_factor
  let th : ℚ := screen_info.texture.height * scale_factor
  { vertices := vertices
    i_resolution := ⟨tw, th, 1 / tw, 1 / th⟩
    o_resolution := ⟨wh.2, wh.1, 1 / wh.2, 1 / wh.1⟩
    screen_id_l := screen_id
    events := logged ++ [.vertexUpload 4, .drawCmd 4] }

/-- Result of one `DrawSingleScreenStereo` call. -/
structure StereoDraw where
  vertices : Option (List ScreenRectVertex)
  i_resolution : Vec4
  o_resolution : Vec4
  screen_id_l : Nat
  screen_id_r : Nat
  events : List DrawEvent
  deriving DecidableEq, Repr

/-- `RendererVulkan::DrawSingleScreenStereo`: same construction as
`DrawSingleScreen`, reading texcoords and texture size from the left-eye
screen and additionally assigning the right-eye screen index. -/
def DrawSingleScreenStereo (screen_info_l : ScreenInfo) (scale_factor : Nat)
    (screen_id_l screen_id_r : Nat) (x y w h : ℚ) (orientation : Nat) :
    StereoDraw :=
  let vertices :=
    MakeScreenVertices x y w h screen_info_l.texcoords orientation
  let logged : List DrawEvent :=
    if orientation ≤ 3 then [] else [.logUnknownOrientation orientation]
  let wh := EffectiveSize w h orientation
  let tw : ℚ := screen_info_l.texture.width * scale_factor
  let th : ℚ := screen_info_l.texture.height * scale_factor
  { vertices := vertices
    i_resolution := ⟨tw, th, 1 / tw, 1 / th⟩
    o_resolution := ⟨wh.2, wh.1, 1 / wh.2, 1 / wh.1⟩
    screen_id_l := screen_id_l
    screen_id_r := screen_id_r
    events := logged ++ [.vertexUpload 4, .drawCmd 4] }

/-- `Common::Rectangle<u32>`. -/
structure Rectangle where
  left : Nat
  top : Nat
  right : Nat
  bottom : Nat
  deriving DecidableEq, Repr

/-- `Common::Rectangle::GetWidth` (u32 arithmetic, here `right ≥ left`). -/
def Rectangle.GetWidth (r : Rectangle) : Nat := r.right - r.left

/-- `Common::Rectangle::GetHeight`. -/
def Rectangle.GetHeight (r : Rectangle) : Nat := r.bottom - r.top

/-- The cardboard slot offsets precomputed by the layout
(`Layout::CardboardSettings`, `s32` fields). -/
structure CardboardSettings where
  top_screen_right_eye : Int
  bottom_screen_right_eye : Int
  deriving DecidableEq, Repr

/-- The fields of `Layout::FramebufferLayout` consumed by the composition
routines. -/
structure FramebufferLayout where
  width : Nat
  height : Nat
  top_screen_enabled : Bool
  bottom_screen_enabled : Bool
  is_rotated : Bool
  top_screen : Rectangle
  bottom_screen : Rectangle
  cardboard : CardboardSettings
  deriving DecidableEq, Repr

/-- One emitted composition draw: whether it is a stereo (two-texture) draw,
the screen slot(s) bound, and the target rectangle and orientation passed to
`DrawSingleScreen`(`Stereo`). -/
structure CompositeDraw where
  stereo : Bool
  screen_id_l : Nat
  screen_id_r : Option Nat
  x : ℚ
  y : ℚ
  w : ℚ
  h : ℚ
  orientation : Nat
  deriving DecidableEq, Repr

/-- `RendererVulkan::DrawTopScreen`: dispatch on the stereo setting.
Coordinates mirror the source exactly: the `u32` rectangle fields are cast
to float, float quantities are halved by exact float division, while
`layout.width / 2` and the cardboard offset sums are integer arithmetic
performed before the cast to float. -/
def DrawTopScreen (render_3d : StereoRenderOption)
    (mono_render_option : Nat) (layout : FramebufferLayout)
    (top_screen : Rectangle) : List CompositeDraw :=
  if ¬ layout.top_screen_enabled then [] else
  let left : ℚ := top_screen.left
  let top : ℚ := top_screen.top
  let width : ℚ := top_screen.GetWidth
  let height : ℚ := top_screen.GetHeight
  let orientation := if layout.is_rotated then Landscape else Portrait
  match render_3d with
  | .Off =>
      [⟨false, mono_render_option, none, left, top, width, height, orientation⟩]
  | .SideBySide =>
      [⟨false, 0, none, left / 2, top, width / 2, height, orientation⟩,
       ⟨false, 1, none, left / 2 + ((layout.width / 2 : Nat) : ℚ), top,
        width / 2, height, orientation⟩]
  | .CardboardVR =>
      [⟨false, 0, none, left, top, width, height, orientation⟩,
       ⟨false, 1, none,
        ((layout.cardboard.top_screen_right_eye +
          ((layout.width / 2 : Nat) : Int) : Int) : ℚ),
        top, width, height, orientation⟩]
  | _ =>
      [⟨true, 0, some 1, left, top, width, height, orientation⟩]

/-- Observable effects of one `RenderToWindow` call, in program order. -/
inductive WindowEvent where
  | getRenderFrame
  | waitPresent
  | finish
  | recreateFrame (width height : Nat)
  | drawScreens
  | flush
  | present
  deriving DecidableEq, Repr

/-- `RendererVulkan::RenderToWindow`: acquire a frame; when the layout
dimensions differ from the frame's, wait out its pending present, drain the
scheduler and recreate the frame; then draw, flush and present. -/
def RenderToWindow (frame_width frame_height layout_width layout_height :
    Nat) : List WindowEvent :=
  [.getRenderFrame] ++
  (if layout_width ≠ frame_width ∨ layout_height ≠ frame_height then
    [WindowEvent.waitPresent, .finish,
      .recreateFrame layout_width layout_height]
   else []) ++
  [.drawScreens, .flush, .present]

/-- Observable effects of one `RenderScreenshot` call, in program order. -/
inductive ScreenshotEvent where
  | allocStagingBuffer (bytes : Nat)
  | recreateFrame (width height : Nat)
  | drawScreens (width height : Nat)
  | recordCopyToStaging (width height : Nat)
  | finish
  | readbackToCaller (bytes : Nat)
  | freeStagingBuffer
  | freeFrame
  | completionCallback
  deriving DecidableEq, Repr

/-- `RendererVulkan::RenderScreenshot`: the one-shot request flag is
exchanged to false; when it was not set, nothing happens.  Otherwise a
host-visible staging buffer of `width * height * 4` bytes and an off-screen
frame at the layout dimensions are allocated, the frame is composed with
`DrawScreens`, a copy into staging is recorded, the scheduler is drained
with `Finish`, the mapped staging bytes are copied to the caller's buffer,
the staging buffer and frame resources are released and the completion
callback is invoked.  Returns the flag value after the exchange and the
events. -/
def RenderScreenshot (screenshot_requested : Bool) (width height : Nat) :
    Bool × List ScreenshotEvent :=
  if ¬ screenshot_requested then (false, []) else
  (false,
   [.allocStagingBuffer (width * height * 4),
    .recreateFrame width height,
    .drawScreens width height,
    .recordCopyToStaging width height,
    .finish,
    .readbackToCaller (width * height * 4),
    .freeStagingBuffer,
    .freeFrame,
    .completionCallback])

/-- `SwapWH` exchanges the width/height entries of a resolution vector
(first with second component, and their reciprocals). -/
def SwapWH (v : Vec4) : Vec4 := ⟨v.y, v.x, v.w, v.z⟩

/-- C9: `ReloadPipeline` is idempotent for every stereo setting, the
re-derived pipeline index is 1 for Anaglyph, 2 for Interlaced and
ReverseInterlaced and 0 otherwise, and within the interlaced cases the
reverse-interlace flag comes out true exactly for ReverseInterlaced. -/
theorem ReloadPipeline_idempotent_and_mapping
    (render_3d : StereoRenderOption) (s : PipelineState) :
    ReloadPipeline render_3d (ReloadPipeline render_3d s) =
      ReloadPipeline render_3d s ∧
    (ReloadPipeline render_3d s).current_pipeline =
      (match render_3d with
       | .Anaglyph => 1
       | .Interlaced => 2
       | .ReverseInterlaced => 2
       | _ => 0) ∧
    (ReloadPipeline .Interlaced s).reverse_interlaced = false ∧
    (ReloadPipeline .ReverseInterlaced s).reverse_interlaced = true := by
  refine ⟨?_, ?_, rfl, rfl⟩ <;> cases render_3d <;> rfl

/-- C10: when either right-eye address in the guest descriptor is zero,
`LoadFBToScreenInfo` downgrades a right-eye request to the left eye: the
address used is the left-eye address of the active double-buffer index even
when `right_eye` is true. -/
theorem SelectFramebufferAddr_right_eye_downgrade
    (framebuffer : FramebufferConfig) (right_eye : Bool)
    (h : framebuffer.address_right1 = 0 ∨ framebuffer.address_right2 = 0) :
    SelectFramebufferAddr framebuffer right_eye =
      (if framebuffer.active_fb = 0 then framebuffer.address_left1
       else framebuffer.address_left2) := by
  rcases h with h | h <;> simp [SelectFramebufferAddr, h]

/-- Closed instance of the right-eye downgrade: a descriptor with
`address_right1 = 0` and `active_fb = 0`, asked for the right eye, still
reads from `address_left1`. -/
theorem SelectFramebufferAddr_right_eye_downgrade_witness :
    SelectFramebufferAddr ⟨0, 100, 200, 0, 300, 400, 240, 1600, 0⟩ true =
      (if (0 : Nat) = 0 then 100 else 200) :=
  SelectFramebufferAddr_right_eye_downgrade
    ⟨0, 100, 200, 0, 300, 400, 240, 1600, 0⟩ true (Or.inl rfl)

/-- C3: on a valid descriptor with `AccelerateDisplay` returning false,
`LoadFBToScreenInfo` does reset the display view to the screen's permanent
texture view with texcoords (0,0,1,1), but the branch then records an
assertion failure (`ASSERT(false)` at the end of the fallback branch), so
execution does not continue normally, contradicting the claim.  Evaluated
at a concrete descriptor satisfying both stride assertions. -/
theorem LoadFBToScreenInfo_fallback_asserts :
    (LoadFBToScreenInfo ⟨0, 100, 200, 300, 400, 400, 240, 1600, 0⟩
        ⟨⟨400, 240, 0, 7⟩, ⟨0, 1, 1, 0⟩, 9⟩ false false).1 =
      ⟨⟨400, 240, 0, 7⟩, ⟨0, 0, 1, 1⟩, 7⟩ ∧
    (LoadFBToScreenInfo ⟨0, 100, 200, 300, 400, 400, 240, 1600, 0⟩
        ⟨⟨400, 240, 0, 7⟩, ⟨0, 1, 1, 0⟩, 9⟩ false false).2 =
      [.fallbackBind, .assertFail] := by
  constructor <;> rfl

/-- C7: for a fixed target rectangle, the `o_resolution` uniform entry
emitted under Portrait is the width/height swap of the one emitted under
Landscape, and likewise PortraitFlipped against LandscapeFlipped; the
vertex positions themselves are built from the unswapped rectangle, so the
portrait and landscape variants place the same four positions. -/
theorem DrawSingleScreen_portrait_swaps_o_resolution
    (screen_info : ScreenInfo) (scale_factor screen_id : Nat) (x y w h : ℚ) :
    (DrawSingleScreen screen_info scale_factor screen_id x y w h
        Portrait).o_resolution =
      SwapWH (DrawSingleScreen screen_info scale_factor screen_id x y w h
        Landscape).o_resolution ∧
    (DrawSingleScreen screen_info scale_factor screen_id x y w h
        PortraitFlipped).o_resolution =
      SwapWH (DrawSingleScreen screen_info scale_factor screen_id x y w h
        LandscapeFlipped).o_resolution ∧
    ((DrawSingleScreen screen_info scale_factor screen_id x y w h
        Portrait).vertices).map
        (List.map (fun v => (v.pos_x, v.pos_y))) =
      ((DrawSingleScreen screen_info scale_factor screen_id x y w h
        Landscape).vertices).map
        (List.map (fun v => (v.pos_x, v.pos_y))) := by
  refine ⟨rfl, rfl, rfl⟩

/-- C4: with no pending request `RenderScreenshot` changes nothing; with a
pending request the flag is consumed, a staging buffer of exactly
`width * height * 4` bytes and an off-screen frame at the requested
dimensions are allocated, the frame is composed via the `DrawScreens`
routine, `Finish` strictly precedes the readback of the mapped staging
bytes, the staging buffer and frame are released between readback and the
completion callback, and the callback is the final action. -/
theorem RenderScreenshot_spec (width height : Nat) :
    RenderScreenshot false width height = (false, []) ∧
    (RenderScreenshot true width height).1 = false ∧
    ScreenshotEvent.allocStagingBuffer (width * height * 4) ∈
      (RenderScreenshot true width height).2 ∧
    ScreenshotEvent.recreateFrame width height ∈
      (RenderScreenshot true width height).2 ∧
    ScreenshotEvent.drawScreens width height ∈
      (RenderScreenshot true width height).2 ∧
    (∃ i j k l m : Nat, i < j ∧ j < k ∧ k < l ∧ l < m ∧
      (RenderScreenshot true width height).2[i]? =
        some ScreenshotEvent.finish ∧
      (RenderScreenshot true width height).2[j]? =
        some (ScreenshotEvent.readbackToCaller (width * height * 4)) ∧
      (RenderScreenshot true width height).2[k]? =
        some ScreenshotEvent.freeStagingBuffer ∧
      (RenderScreenshot true width height).2[l]? =
        some ScreenshotEvent.freeFrame ∧
      (RenderScreenshot true width height).2[m]? =
        some ScreenshotEvent.completionCallback) ∧
    (RenderScreenshot true width height).2.getLast? =
      some ScreenshotEvent.completionCallback := by
  refine ⟨rfl, rfl, ?_, ?_, ?_, ⟨4, 5, 6, 7, 8, ?_⟩, rfl⟩ <;>
    simp [RenderScreenshot]

/-- C5: in `RenderToWindow`, whenever the acquired frame's dimensions
differ from the layout's, the full trace is acquire, WaitPresent, scheduler
Finish, RecreateFrame, draw, flush, present; when they agree no
RecreateFrame occurs; and any occurrence of RecreateFrame in the trace is
strictly preceded by a WaitPresent and then a Finish (the full drain). -/
theorem RenderToWindow_drain_before_recreate
    (frame_width frame_height layout_width layout_height : Nat) :
    ((layout_width ≠ frame_width ∨ layout_height ≠ frame_height) →
      RenderToWindow frame_width frame_height layout_width layout_height =
        [.getRenderFrame, .waitPresent, .finish,
         .recreateFrame layout_width layout_height, .drawScreens, .flush,
         .present]) ∧
    (layout_width = frame_width ∧ layout_height = frame_height →
      WindowEvent.recreateFrame layout_width layout_height ∉
        RenderToWindow frame_width frame_height layout_width
          layout_height) ∧
    (∀ n : Nat, (RenderToWindow frame_width frame_height layout_width
          layout_height)[n]? =
        some (WindowEvent.recreateFrame layout_width layout_height) →
      ∃ i j : Nat, i < j ∧ j < n ∧
        (RenderToWindow frame_width frame_height layout_width
          layout_height)[i]? = some WindowEvent.waitPresent ∧
        (RenderToWindow frame_width frame_height layout_width
          layout_height)[j]? = some WindowEvent.finish) := by
  by_cases hd : layout_width ≠ frame_width ∨ layout_height ≠ frame_height
  · have htr : RenderToWindow frame_width frame_height layout_width
        layout_height =
        [.getRenderFrame, .waitPresent, .finish,
         .recreateFrame layout_width layout_height, .drawScreens, .flush,
         .present] := by
      simp [RenderToWindow, hd]
    refine ⟨fun _ => htr, ?_, ?_⟩
    · rintro ⟨h1, h2⟩
      rcases hd with h | h
      · exact absurd h1 h
      · exact absurd h2 h
    · intro n hn
      rw [htr] at hn
      have h3 : n = 3 := by
        rcases n with _ | _ | _ | _ | m
        · simp at hn
        · simp at hn
        · simp at hn
        · rfl
        · rcases m with _ | _ | _ | k
          · simp at hn
          · simp at hn
          · simp at hn
          · simp at hn
      subst h3
      exact ⟨1, 2, by omega, by omega, by rw [htr]; rfl, by rw [htr]; rfl⟩
  · rw [not_or, not_not, not_not] at hd
    have htr : RenderToWindow frame_width frame_height layout_width
        layout_height =
        [.getRenderFrame, .drawScreens, .flush, .present] := by
      simp [RenderToWindow, hd.1, hd.2]
    refine ⟨?_, fun _ => ?_, ?_⟩
    · intro hc
      rcases hc with h | h
      · exact absurd hd.1 h
      · exact absurd hd.2 h
    · rw [htr]
      simp
    · intro n hn
      rw [htr] at hn
      exfalso
      rcases n with _ | _ | _ | _ | m
      · simp at hn
      · simp at hn
      · simp at hn
      · simp at hn
      · simp at hn

/-- Closed instance of the resize drain: a 1x1 frame asked to render a 2x2
layout triggers the full WaitPresent / Finish / RecreateFrame sequence. -/
theorem RenderToWindow_drain_before_recreate_witness :
    RenderToWindow 1 1 2 2 =
      [.getRenderFrame, .waitPresent, .finish, .recreateFrame 2 2,
       .drawScreens, .flush, .present] :=
  (RenderToWindow_drain_before_recreate 1 1 2 2).1 (Or.inl (by decide))

/-- A texture's metadata agrees with a guest descriptor on width, height
and pixel format. -/
def TextureMatches (texture : TextureInfo)
    (framebuffer : FramebufferConfig) : Prop :=
  texture.width = framebuffer.width ∧
  texture.height = framebuffer.height ∧
  texture.format = framebuffer.color_format

instance (texture : TextureInfo) (framebuffer : FramebufferConfig) :
    Decidable (TextureMatches texture framebuffer) :=
  inferInstanceAs (Decidable (_ ∧ _ ∧ _))

/-- With the slot's color fill disabled, the loop body leaves the texture's
metadata equal to the descriptor read in that call, and
`ConfigureFramebufferTexture` ran exactly when one of the three fields
differed. -/
theorem PrepareSlot_disabled_matches (texture : TextureInfo)
    (framebuffer : FramebufferConfig) (color_fill : ColorFill) (slot : Nat)
    (h : color_fill.is_enabled = false) :
    TextureMatches (PrepareSlot texture framebuffer color_fill slot).1
      framebuffer ∧
    ((PrepareSlot texture framebuffer color_fill slot).2.1 = true ↔
      (texture.width ≠ framebuffer.width ∨
       texture.height ≠ framebuffer.height ∨
       texture.format ≠ framebuffer.color_format)) := by
  by_cases h1 : texture.width = framebuffer.width <;>
  by_cases h2 : texture.height = framebuffer.height <;>
  by_cases h3 : texture.format = framebuffer.color_format <;>
  simp [PrepareSlot, ConfigureFramebufferTexture, TextureMatches, h, h1, h2,
    h3]

/-- C1 counterexample: in a call whose top color-fill register is enabled,
the descriptor read in that call has width 320 while the slot's texture has
width 400, yet the texture keeps its stale metadata after the call and
`ConfigureFramebufferTexture` is not invoked, refuting both the equality
and the if-and-only-if of the claim as stated. -/
theorem PrepareRendertarget_claim_counterexample :
    (PrepareRendertarget
        ⟨⟨400, 240, 0, 1⟩, ⟨400, 240, 0, 2⟩, ⟨320, 240, 0, 3⟩⟩
        ⟨⟨0, 100, 200, 300, 400, 320, 240, 1280, 0⟩,
         ⟨0, 500, 600, 0, 0, 320, 240, 1280, 0⟩,
         ⟨true, 10, 20, 30⟩, ⟨false, 0, 0, 0⟩⟩).1.texture0.width = 400 ∧
    (400 : Nat) ≠ 320 ∧
    (PrepareSlot ⟨400, 240, 0, 1⟩ ⟨0, 100, 200, 300, 400, 320, 240, 1280, 0⟩
        ⟨true, 10, 20, 30⟩ 0).2.1 = false :=
  ⟨rfl, by decide, rfl⟩

/-- C1 (amended): per slot, on calls where that slot's color-fill register
is disabled, `PrepareRendertarget` leaves the slot's texture metadata equal
to the descriptor read in that call (slots 0 and 1 read descriptor 0 and
the top register, slot 2 reads descriptor 1 and the bottom register),
`ConfigureFramebufferTexture` runs on the slot iff one of
width/height/format differed, and the same equality holds after any
sequence of calls ending in such a call; on calls where the slot's
register is enabled its texture is left untouched even when the descriptor
changed.  Mixed-fill calls are covered: each implication assumes only its
own register. -/
theorem PrepareRendertarget_texture_matches_descriptor
    (s : RendertargetState) (input : PrepareInput)
    (inputs : List PrepareInput) :
    (input.color_fill_top.is_enabled = false →
      TextureMatches (PrepareRendertarget s input).1.texture0
        input.framebuffer0 ∧
      TextureMatches (PrepareRendertarget s input).1.texture1
        input.framebuffer0 ∧
      ((PrepareSlot s.texture0 input.framebuffer0 input.color_fill_top
          0).2.1 = true ↔
        (s.texture0.width ≠ input.framebuffer0.width ∨
         s.texture0.height ≠ input.framebuffer0.height ∨
         s.texture0.format ≠ input.framebuffer0.color_format)) ∧
      ((PrepareSlot s.texture1 input.framebuffer0 input.color_fill_top
          1).2.1 = true ↔
        (s.texture1.width ≠ input.framebuffer0.width ∨
         s.texture1.height ≠ input.framebuffer0.height ∨
         s.texture1.format ≠ input.framebuffer0.color_format)) ∧
      TextureMatches (PrepareMany s (inputs ++ [input])).texture0
        input.framebuffer0 ∧
      TextureMatches (PrepareMany s (inputs ++ [input])).texture1
        input.framebuffer0) ∧
    (input.color_fill_bottom.is_enabled = false →
      TextureMatches (PrepareRendertarget s input).1.texture2
        input.framebuffer1 ∧
      ((PrepareSlot s.texture2 input.framebuffer1 input.color_fill_bottom
          2).2.1 = true ↔
        (s.texture2.width ≠ input.framebuffer1.width ∨
         s.texture2.height ≠ input.framebuffer1.height ∨
         s.texture2.format ≠ input.framebuffer1.color_format)) ∧
      TextureMatches (PrepareMany s (inputs ++ [input])).texture2
        input.framebuffer1) ∧
    (input.color_fill_top.is_enabled = true →
      (PrepareRendertarget s input).1.texture0 = s.texture0 ∧
      (PrepareRendertarget s input).1.texture1 = s.texture1) ∧
    (input.color_fill_bottom.is_enabled = true →
      (PrepareRendertarget s input).1.texture2 = s.texture2) := by
  have hseq : PrepareMany s (inputs ++ [input]) =
      (PrepareRendertarget (PrepareMany s inputs) input).1 := by
    simp [PrepareMany, List.foldl_append]
  refine ⟨fun h0 => ?_, fun h1 => ?_, fun h0 => ?_, fun h1 => ?_⟩
  · refine ⟨(PrepareSlot_disabled_matches s.texture0 input.framebuffer0
        input.color_fill_top 0 h0).1,
      (PrepareSlot_disabled_matches s.texture1 input.framebuffer0
        input.color_fill_top 1 h0).1,
      (PrepareSlot_disabled_matches s.texture0 input.framebuffer0
        input.color_fill_top 0 h0).2,
      (PrepareSlot_disabled_matches s.texture1 input.framebuffer0
        input.color_fill_top 1 h0).2, ?_, ?_⟩
    · rw [hseq]
      exact (PrepareSlot_disabled_matches _ _ _ 0 h0).1
    · rw [hseq]
      exact (PrepareSlot_disabled_matches _ _ _ 1 h0).1
  · refine ⟨(PrepareSlot_disabled_matches s.texture2 input.framebuffer1
        input.color_fill_bottom 2 h1).1,
      (PrepareSlot_disabled_matches s.texture2 input.framebuffer1
        input.color_fill_bottom 2 h1).2, ?_⟩
    rw [hseq]
    exact (PrepareSlot_disabled_matches _ _ _ 2 h1).1
  · constructor
    · simp [PrepareRendertarget, PrepareSlot, h0]
    · simp [PrepareRendertarget, PrepareSlot, h0]
  · simp [PrepareRendertarget, PrepareSlot, h1]

/-- Closed instance of the amended C1 at a mixed-fill call: top fill
enabled while the bottom fill is disabled; slot 2's stale 320-wide texture
is brought in line with its descriptor (width 360) by the call. -/
theorem PrepareRendertarget_texture_matches_descriptor_witness :
    TextureMatches
      (PrepareRendertarget
        ⟨⟨400, 240, 0, 1⟩, ⟨400, 240, 0, 2⟩, ⟨320, 240, 0, 3⟩⟩
        ⟨⟨0, 100, 200, 300, 400, 400, 240, 1600, 0⟩,
         ⟨0, 500, 600, 0, 0, 360, 240, 1440, 0⟩,
         ⟨true, 10, 20, 30⟩, ⟨false, 0, 0, 0⟩⟩).1.texture2
      ⟨0, 500, 600, 0, 0, 360, 240, 1440, 0⟩ :=
  ((PrepareRendertarget_texture_matches_descriptor
    ⟨⟨400, 240, 0, 1⟩, ⟨400, 240, 0, 2⟩, ⟨320, 240, 0, 3⟩⟩
    ⟨⟨0, 100, 200, 300, 400, 400, 240, 1600, 0⟩,
     ⟨0, 500, 600, 0, 0, 360, 240, 1440, 0⟩,
     ⟨true, 10, 20, 30⟩, ⟨false, 0, 0, 0⟩⟩ []).2.1 rfl).1

/-- The slot index carried by a `PrepareRendertarget` event. -/
def PrepareEvent.slotOf : PrepareEvent → Nat
  | .clearColor s _ _ _ _ => s
  | .reallocTexture s _ _ _ => s
  | .loadFB s _ => s

/-- Every event emitted by the loop body for a slot carries that slot's
index. -/
theorem PrepareSlot_events_slot (texture : TextureInfo)
    (framebuffer : FramebufferConfig) (color_fill : ColorFill) (slot : Nat) :
    ∀ e ∈ (PrepareSlot texture framebuffer color_fill slot).2.2,
      e.slotOf = slot := by
  intro e he
  by_cases h : color_fill.is_enabled
  · simp [PrepareSlot, h] at he
    subst he
    rfl
  · by_cases hr : (texture.width != framebuffer.width ||
        texture.height != framebuffer.height ||
        texture.format != framebuffer.color_format) = true
    · simp [PrepareSlot, h, hr] at he
      rcases he with he | he <;> subst he <;> rfl
    · simp [PrepareSlot, h, hr] at he
      subst he
      rfl

/-- With a slot's color fill enabled, the loop body only records the clear
of that slot to the 0-255-scaled color and leaves the texture unchanged. -/
theorem PrepareSlot_enabled (texture : TextureInfo)
    (framebuffer : FramebufferConfig) (color_fill : ColorFill) (slot : Nat)
    (h : color_fill.is_enabled = true) :
    PrepareSlot texture framebuffer color_fill slot =
      (texture, false,
       [.clearColor slot ((color_fill.color_r : ℚ) / 255)
         ((color_fill.color_g : ℚ) / 255)
         ((color_fill.color_b : ℚ) / 255) 1]) := by
  simp [PrepareSlot, h, LoadColorToActiveVkTexture]

/-- C8: per slot, when that slot's color-fill register is enabled with
color (r, g, b), `PrepareRendertarget` records a uniform GPU clear of that
slot to (r/255, g/255, b/255, 1), invokes no texture reallocation and
performs no guest framebuffer load for that slot, and leaves its texture
untouched.  The top register governs slots 0 and 1, the bottom register
governs slot 2; each implication assumes only its own register. -/
theorem PrepareRendertarget_flat_fill (s : RendertargetState)
    (input : PrepareInput) :
    (input.color_fill_top.is_enabled = true →
      PrepareEvent.clearColor 0 ((input.color_fill_top.color_r : ℚ) / 255)
          ((input.color_fill_top.color_g : ℚ) / 255)
          ((input.color_fill_top.color_b : ℚ) / 255) 1 ∈
        (PrepareRendertarget s input).2 ∧
      PrepareEvent.clearColor 1 ((input.color_fill_top.color_r : ℚ) / 255)
          ((input.color_fill_top.color_g : ℚ) / 255)
          ((input.color_fill_top.color_b : ℚ) / 255) 1 ∈
        (PrepareRendertarget s input).2 ∧
      (∀ width height format,
        PrepareEvent.reallocTexture 0 width height format ∉
          (PrepareRendertarget s input).2) ∧
      (∀ width height format,
        PrepareEvent.reallocTexture 1 width height format ∉
          (PrepareRendertarget s input).2) ∧
      (∀ right_eye,
        PrepareEvent.loadFB 0 right_eye ∉
          (PrepareRendertarget s input).2) ∧
      (∀ right_eye,
        PrepareEvent.loadFB 1 right_eye ∉
          (PrepareRendertarget s input).2) ∧
      (PrepareRendertarget s input).1.texture0 = s.texture0 ∧
      (PrepareRendertarget s input).1.texture1 = s.texture1) ∧
    (input.color_fill_bottom.is_enabled = true →
      PrepareEvent.clearColor 2
          ((input.color_fill_bottom.color_r : ℚ) / 255)
          ((input.color_fill_bottom.color_g : ℚ) / 255)
          ((input.color_fill_bottom.color_b : ℚ) / 255) 1 ∈
        (PrepareRendertarget s input).2 ∧
      (∀ width height format,
        PrepareEvent.reallocTexture 2 width height format ∉
          (PrepareRendertarget s input).2) ∧
      (∀ right_eye,
        PrepareEvent.loadFB 2 right_eye ∉
          (PrepareRendertarget s input).2) ∧
      (PrepareRendertarget s input).1.texture2 = s.texture2) := by
  have hs0 := PrepareSlot_events_slot s.texture0 input.framebuffer0
    input.color_fill_top 0
  have hs1 := PrepareSlot_events_slot s.texture1 input.framebuffer0
    input.color_fill_top 1
  have hs2 := PrepareSlot_events_slot s.texture2 input.framebuffer1
    input.color_fill_bottom 2
  have hsplit : (PrepareRendertarget s input).2 =
      (PrepareSlot s.texture0 input.framebuffer0 input.color_fill_top
        0).2.2 ++
      (PrepareSlot s.texture1 input.framebuffer0 input.color_fill_top
        1).2.2 ++
      (PrepareSlot s.texture2 input.framebuffer1 input.color_fill_bottom
        2).2.2 := rfl
  constructor
  · intro h
    have e0 := PrepareSlot_enabled s.texture0 input.framebuffer0
      input.color_fill_top 0 h
    have e1 := PrepareSlot_enabled s.texture1 input.framebuffer0
      input.color_fill_top 1 h
    refine ⟨?_, ?_, ?_, ?_, ?_, ?_, ?_, ?_⟩
    · rw [hsplit, e0]
      simp
    · rw [hsplit, e1]
      simp
    · intro width height format hmem
      rw [hsplit, e0, e1] at hmem
      simp only [List.mem_append] at hmem
      rcases hmem with (hmem | hmem) | hmem
      · simp at hmem
      · simp at hmem
      · have := hs2 _ hmem
        simp [PrepareEvent.slotOf] at this
    · intro width height format hmem
      rw [hsplit, e0, e1] at hmem
      simp only [List.mem_append] at hmem
      rcases hmem with (hmem | hmem) | hmem
      · simp at hmem
      · simp at hmem
      · have := hs2 _ hmem
        simp [PrepareEvent.slotOf] at this
    · intro right_eye hmem
      rw [hsplit, e0, e1] at hmem
      simp only [List.mem_append] at hmem
      rcases hmem with (hmem | hmem) | hmem
      · simp at hmem
      · simp at hmem
      · have := hs2 _ hmem
        simp [PrepareEvent.slotOf] at this
    · intro right_eye hmem
      rw [hsplit, e0, e1] at hmem
      simp only [List.mem_append] at hmem
      rcases hmem with (hmem | hmem) | hmem
      · simp at hmem
      · simp at hmem
      · have := hs2 _ hmem
        simp [PrepareEvent.slotOf] at this
    · show (PrepareSlot s.texture0 input.framebuffer0 input.color_fill_top
          0).1 = s.texture0
      rw [e0]
    · show (PrepareSlot s.texture1 input.framebuffer0 input.color_fill_top
          1).1 = s.texture1
      rw [e1]
  · intro h
    have e2 := PrepareSlot_enabled s.texture2 input.framebuffer1
      input.color_fill_bottom 2 h
    refine ⟨?_, ?_, ?_, ?_⟩
    · rw [hsplit, e2]
      simp
    · intro width height format hmem
      rw [hsplit, e2] at hmem
      simp only [List.mem_append] at hmem
      rcases hmem with (hmem | hmem) | hmem
      · have := hs0 _ hmem
        simp [PrepareEvent.slotOf] at this
      · have := hs1 _ hmem
        simp [PrepareEvent.slotOf] at this
      · simp at hmem
    · intro right_eye hmem
      rw [hsplit, e2] at hmem
      simp only [List.mem_append] at hmem
      rcases hmem with (hmem | hmem) | hmem
      · have := hs0 _ hmem
        simp [PrepareEvent.slotOf] at this
      · have := hs1 _ hmem
        simp [PrepareEvent.slotOf] at this
      · simp at hmem
    · show (PrepareSlot s.texture2 input.framebuffer1
          input.color_fill_bottom 2).1 = s.texture2
      rw [e2]

/-- Closed instance of the flat-fill behavior at a mixed-fill call: the
bottom register enabled with color (40, 50, 60) records the clear of
slot 2 to (40/255, 50/255, 60/255, 1) while the top fill stays disabled. -/
theorem PrepareRendertarget_flat_fill_witness :
    PrepareEvent.clearColor 2 (((40 : Nat) : ℚ) / 255)
        (((50 : Nat) : ℚ) / 255) (((60 : Nat) : ℚ) / 255) 1 ∈
      (PrepareRendertarget
        ⟨⟨400, 240, 0, 1⟩, ⟨400, 240, 0, 2⟩, ⟨320, 240, 0, 3⟩⟩
        ⟨⟨0, 100, 200, 300, 400, 400, 240, 1600, 0⟩,
         ⟨0, 500, 600, 0, 0, 320, 240, 1280, 0⟩,
         ⟨false, 0, 0, 0⟩, ⟨true, 40, 50, 60⟩⟩).2 :=
  ((PrepareRendertarget_flat_fill
    ⟨⟨400, 240, 0, 1⟩, ⟨400, 240, 0, 2⟩, ⟨320, 240, 0, 3⟩⟩
    ⟨⟨0, 100, 200, 300, 400, 400, 240, 1600, 0⟩,
     ⟨0, 500, 600, 0, 0, 320, 240, 1280, 0⟩,
     ⟨false, 0, 0, 0⟩, ⟨true, 40, 50, 60⟩⟩).2 rfl).1

/-- C2 counterexample: `DrawSingleScreen` called with the unrecognized
orientation value 4 logs the error but does not skip the draw: the vertex
upload and the 4-vertex draw command are still recorded. -/
theorem DrawSingleScreen_unknown_orientation_counterexample :
    (DrawSingleScreen ⟨⟨400, 240, 0, 7⟩, ⟨0, 1, 1, 0⟩, 7⟩ 1 0 8 16 400 240
        4).events =
      [.logUnknownOrientation 4, .vertexUpload 4, .drawCmd 4] ∧
    DrawEvent.drawCmd 4 ∈
      (DrawSingleScreen ⟨⟨400, 240, 0, 7⟩, ⟨0, 1, 1, 0⟩, 7⟩ 1 0 8 16 400 240
        4).events := by
  exact ⟨rfl, by decide⟩

/-- C2 (amended): for any orientation value outside the four recognized
ones, both `DrawSingleScreen` and `DrawSingleScreenStereo` log the
unrecognized-orientation error but do not skip the draw: the 4-vertex
upload and draw command are still recorded, with the vertex array left
default-initialized (its contents unspecified); the rest of the frame's
draws and the present are unaffected. -/
theorem DrawSingleScreen_unknown_orientation_logs_and_draws
    (screen_info : ScreenInfo) (scale_factor screen_id screen_id_r : Nat)
    (x y w h : ℚ) (orientation : Nat) (horient : 3 < orientation) :
    (DrawSingleScreen screen_info scale_factor screen_id x y w h
        orientation).events =
      [.logUnknownOrientation orientation, .vertexUpload 4, .drawCmd 4] ∧
    (DrawSingleScreen screen_info scale_factor screen_id x y w h
        orientation).vertices = none ∧
    (DrawSingleScreenStereo screen_info scale_factor screen_id screen_id_r
        x y w h orientation).events =
      [.logUnknownOrientation orientation, .vertexUpload 4, .drawCmd 4] ∧
    (DrawSingleScreenStereo screen_info scale_factor screen_id screen_id_r
        x y w h orientation).vertices = none := by
  obtain ⟨k, rfl⟩ : ∃ k, orientation = k + 4 :=
    ⟨orientation - 4, by omega⟩
  have hv : MakeScreenVertices x y w h screen_info.texcoords (k + 4) =
      none := rfl
  have hle : ¬ (k + 4 ≤ 3) := by omega
  refine ⟨?_, ?_, ?_, ?_⟩ <;>
    simp [DrawSingleScreen, DrawSingleScreenStereo, hv, hle]

/-- Closed instance of the amended C2 at orientation value 5. -/
theorem DrawSingleScreen_unknown_orientation_logs_and_draws_witness :
    (DrawSingleScreen ⟨⟨400, 240, 0, 7⟩, ⟨0, 1, 1, 0⟩, 7⟩ 1 0 8 16 400 240
        5).events =
      [.logUnknownOrientation 5, .vertexUpload 4, .drawCmd 4] :=
  (DrawSingleScreen_unknown_orientation_logs_and_draws
    ⟨⟨400, 240, 0, 7⟩, ⟨0, 1, 1, 0⟩, 7⟩ 1 0 0 8 16 400 240 5
    (by decide)).1

/-- C6: on an enabled, nonempty top-screen region within the layout width
(nonnegative cardboard offset): stereo Off emits exactly one draw at the
full region width from the mono-preference slot; SideBySide emits exactly
two draws of half the region width each, summing to the full width, slot 0
ending within the left half and slot 1 starting at the integer midline or
beyond; CardboardVR emits exactly two full-width draws, slot 0 at the
region's left edge and slot 1 at the precomputed cardboard offset past the
integer midline, the two x offsets being distinct whenever the region lies
in the left half of the layout (as cardboard layouts are constructed). -/
theorem DrawTopScreen_region_coverage (layout : FramebufferLayout)
    (mono_render_option : Nat)
    (hen : layout.top_screen_enabled = true)
    (hlr : layout.top_screen.left < layout.top_screen.right)
    (hrw : layout.top_screen.right ≤ layout.width)
    (hcb : 0 ≤ layout.cardboard.top_screen_right_eye) :
    (∃ d : CompositeDraw,
      DrawTopScreen .Off mono_render_option layout layout.top_screen =
        [d] ∧
      d.stereo = false ∧ d.screen_id_l = mono_render_option ∧
      d.w = (layout.top_screen.GetWidth : ℚ)) ∧
    (∃ d1 d2 : CompositeDraw,
      DrawTopScreen .SideBySide mono_render_option layout
        layout.top_screen = [d1, d2] ∧
      d1.w = (layout.top_screen.GetWidth : ℚ) / 2 ∧
      d2.w = (layout.top_screen.GetWidth : ℚ) / 2 ∧
      d1.w + d2.w = (layout.top_screen.GetWidth : ℚ) ∧
      d1.screen_id_l = 0 ∧ d2.screen_id_l = 1 ∧
      d1.x + d1.w ≤ (layout.width : ℚ) / 2 ∧
      ((layout.width / 2 : Nat) : ℚ) ≤ d2.x) ∧
    (∃ d1 d2 : CompositeDraw,
      DrawTopScreen .CardboardVR mono_render_option layout
        layout.top_screen = [d1, d2] ∧
      d1.w = (layout.top_screen.GetWidth : ℚ) ∧
      d2.w = (layout.top_screen.GetWidth : ℚ) ∧
      d1.screen_id_l = 0 ∧ d2.screen_id_l = 1 ∧
      d1.x = (layout.top_screen.left : ℚ) ∧
      d2.x = ((layout.cardboard.top_screen_right_eye +
        ((layout.width / 2 : Nat) : Int) : Int) : ℚ) ∧
      (layout.top_screen.right ≤ layout.width / 2 → d1.x ≠ d2.x)) := by
  have hl2 : (layout.top_screen.left : ℚ) <
      (layout.top_screen.right : ℚ) := by exact_mod_cast hlr
  have hrq : (layout.top_screen.right : ℚ) ≤ (layout.width : ℚ) := by
    exact_mod_cast hrw
  have hW : ((layout.top_screen.GetWidth : Nat) : ℚ) =
      (layout.top_screen.right : ℚ) - (layout.top_screen.left : ℚ) := by
    rw [Rectangle.GetWidth, Nat.cast_sub (le_of_lt hlr)]
  have hl0 : (0 : ℚ) ≤ (layout.top_screen.left : ℚ) := Nat.cast_nonneg _
  have hoff : DrawTopScreen .Off mono_render_option layout
      layout.top_screen =
      [⟨false, mono_render_option, none, (layout.top_screen.left : ℚ),
        (layout.top_screen.top : ℚ), (layout.top_screen.GetWidth : ℚ),
        (layout.top_screen.GetHeight : ℚ),
        if layout.is_rotated then Landscape else Portrait⟩] := by
    simp [DrawTopScreen, hen]
  have hsbs : DrawTopScreen .SideBySide mono_render_option layout
      layout.top_screen =
      [⟨false, 0, none, (layout.top_screen.left : ℚ) / 2,
        (layout.top_screen.top : ℚ),
        (layout.top_screen.GetWidth : ℚ) / 2,
        (layout.top_screen.GetHeight : ℚ),
        if layout.is_rotated then Landscape else Portrait⟩,
       ⟨false, 1, none, (layout.top_screen.left : ℚ) / 2 +
          ((layout.width / 2 : Nat) : ℚ),
        (layout.top_screen.top : ℚ),
        (layout.top_screen.GetWidth : ℚ) / 2,
        (layout.top_screen.GetHeight : ℚ),
        if layout.is_rotated then Landscape else Portrait⟩] := by
    simp [DrawTopScreen, hen]
  have hcard : DrawTopScreen .CardboardVR mono_render_option layout
      layout.top_screen =
      [⟨false, 0, none, (layout.top_screen.left : ℚ),
        (layout.top_screen.top : ℚ), (layout.top_screen.GetWidth : ℚ),
        (layout.top_screen.GetHeight : ℚ),
        if layout.is_rotated then Landscape else Portrait⟩,
       ⟨false, 1, none,
        ((layout.cardboard.top_screen_right_eye +
          ((layout.width / 2 : Nat) : Int) : Int) : ℚ),
        (layout.top_screen.top : ℚ), (layout.top_screen.GetWidth : ℚ),
        (layout.top_screen.GetHeight : ℚ),
        if layout.is_rotated then Landscape else Portrait⟩] := by
    simp [DrawTopScreen, hen]
  refine ⟨⟨_, hoff, rfl, rfl, rfl⟩,
    ⟨_, _, hsbs, rfl, rfl, by ring, rfl, rfl, ?_, ?_⟩,
    ⟨_, _, hcard, rfl, rfl, rfl, rfl, rfl, rfl, ?_⟩⟩
  · show (layout.top_screen.left : ℚ) / 2 +
      (layout.top_screen.GetWidth : ℚ) / 2 ≤ (layout.width : ℚ) / 2
    rw [hW]
    linarith
  · show ((layout.width / 2 : Nat) : ℚ) ≤
      (layout.top_screen.left : ℚ) / 2 + ((layout.width / 2 : Nat) : ℚ)
    linarith
  · intro hhalf
    have hr2 : (layout.top_screen.right : ℚ) ≤
        ((layout.width / 2 : Nat) : ℚ) := by exact_mod_cast hhalf
    have hcbq : (0 : ℚ) ≤ (layout.cardboard.top_screen_right_eye : ℚ) := by
      exact_mod_cast hcb
    have hlt : (layout.top_screen.left : ℚ) <
        ((layout.cardboard.top_screen_right_eye +
          ((layout.width / 2 : Nat) : Int) : Int) : ℚ) := by
      rw [Int.cast_add, Int.cast_natCast]
      linarith
    exact ne_of_lt hlt

/-- Closed instance of the top-screen coverage at a standard full-width
rotated layout (top rectangle spanning the whole 400-wide window): the Off
dispatch draws it once at full width from slot 1. -/
theorem DrawTopScreen_region_coverage_witness :
    ∃ d : CompositeDraw,
      DrawTopScreen .Off 1
        ⟨400, 480, true, true, true, ⟨0, 0, 400, 240⟩,
         ⟨40, 240, 360, 480⟩, ⟨10, 10⟩⟩
        (FramebufferLayout.top_screen
          ⟨400, 480, true, true, true, ⟨0, 0, 400, 240⟩,
           ⟨40, 240, 360, 480⟩, ⟨10, 10⟩⟩) = [d] ∧
      d.stereo = false ∧ d.screen_id_l = 1 ∧
      d.w = ((Rectangle.GetWidth ⟨0, 0, 400, 240⟩ : Nat) : ℚ) :=
  (DrawTopScreen_region_coverage
    ⟨400, 480, true, true, true, ⟨0, 0, 400, 240⟩, ⟨40, 240, 360, 480⟩,
     ⟨10, 10⟩⟩ 1 rfl (by decide) (by decide) (by decide)).1

end Vulkan
